import Mathlib

/-!
Verification of the do-what desktop backend (Rust sources under
`packages/desktop/src-tauri/src`).  Strings are embedded as `List Char`
(one element per Rust `char`, i.e. Unicode scalar value); Rust byte
lengths are recovered through the UTF-8 size of each scalar.  Machine
integers (`usize`, `u64`) are embedded as `Nat` with explicit wrapping
modulo `2 ^ 64` where the Rust arithmetic can wrap.
-/

namespace DoWhat

/-- Width modulus of Rust `usize`/`u64` on the 64-bit targets the app ships for. -/
def USIZE : Nat := 2 ^ 64

/-- Rust `usize` subtraction `a - b` as compiled in release builds: wrapping
modulo `2 ^ 64`.  (In debug builds the same expression panics when `b > a`.) -/
def usizeSub (a b : Nat) : Nat := (a % USIZE + (USIZE - b % USIZE)) % USIZE

/-- Rust `str::len`: the UTF-8 byte length of a string. -/
def utf8Len (s : List Char) : Nat := (s.map Char.utf8Size).sum

/-- `truncate_output` from `src/utils.rs`:

    pub fn truncate_output(input: &str, max_chars: usize) -> String {
        if input.len() <= max_chars { return input.to_string(); }
        input.chars().skip(input.chars().count() - max_chars).collect()
    }

The guard compares the BYTE length `input.len()` against `max_chars`, while the
skip count is computed from the CHARACTER count; the subtraction is `usize`
arithmetic, so it wraps in release builds (`usizeSub`). -/
def truncate_output (input : List Char) (max_chars : Nat) : List Char :=
  if utf8Len input ≤ max_chars then input
  else input.drop (usizeSub input.length max_chars)

/-- Engine runtime selector from `src/types.rs` (`Default` is `Direct`). -/
inductive EngineRuntime where
  | Direct
  | Orchestrator
deriving DecidableEq

/-- `EngineState` from `src/engine/manager.rs`.  The `CommandChild` process
handle is abstracted to its pid; every other field keeps its source type. -/
structure EngineState where
  runtime : EngineRuntime
  child : Option Nat
  child_exited : Bool
  project_dir : Option String
  hostname : Option String
  port : Option Nat
  base_url : Option String
  opencode_username : Option String
  opencode_password : Option String
  last_stdout : Option String
  last_stderr : Option String
deriving DecidableEq

/-- Rust `EngineState::default()` (derived `Default`: `None`/`false`/`Direct`). -/
def engineStateDefault : EngineState :=
  { runtime := .Direct, child := none, child_exited := false, project_dir := none,
    hostname := none, port := none, base_url := none, opencode_username := none,
    opencode_password := none, last_stdout := none, last_stderr := none }

/-- `EngineManager::stop_locked` from `src/engine/manager.rs`: takes and kills the
child (the kill is a side effect outside the state), then assigns every field.
Note it assigns `child_exited = true`, not the `Default` value `false`. -/
def EngineManager.stop_locked (state : EngineState) : EngineState :=
  { state with
    child := none, child_exited := true, runtime := .Direct, base_url := none,
    project_dir := none, hostname := none, port := none, opencode_username := none,
    opencode_password := none, last_stdout := none, last_stderr := none }

/-- `OpenworkServerState` from `src/openwork_server/manager.rs`, the process
handle abstracted to its pid. -/
structure OpenworkServerState where
  child : Option Nat
  child_exited : Bool
  host : Option String
  port : Option Nat
  base_url : Option String
  connect_url : Option String
  mdns_url : Option String
  lan_url : Option String
  client_token : Option String
  host_token : Option String
  last_stdout : Option String
  last_stderr : Option String
deriving DecidableEq

/-- Rust `OpenworkServerState::default()`. -/
def openworkServerStateDefault : OpenworkServerState :=
  { child := none, child_exited := false, host := none, port := none, base_url := none,
    connect_url := none, mdns_url := none, lan_url := none, client_token := none,
    host_token := none, last_stdout := none, last_stderr := none }

/-- `OpenworkServerManager::stop_locked` from `src/openwork_server/manager.rs`. -/
def OpenworkServerManager.stop_locked (state : OpenworkServerState) : OpenworkServerState :=
  { state with
    child := none, child_exited := true, host := none, port := none, base_url := none,
    connect_url := none, mdns_url := none, lan_url := none, client_token := none,
    host_token := none, last_stdout := none, last_stderr := none }

/-- UTF-8 length of a replicated character. -/
theorem utf8Len_replicate (n : Nat) (c : Char) :
    utf8Len (List.replicate n c) = n * c.utf8Size := by
  induction n with
  | zero => simp [utf8Len]
  | succ n ih =>
    simp only [List.replicate_succ, utf8Len, List.map_cons, List.sum_cons] at ih ⊢
    rw [ih, Nat.succ_mul]
    ring

/-- C1 evidence: `truncate_output` mishandles strings whose character count is
under the cap but whose byte count is over it.  With the production cap 8000, a
buffer of 4000 euro signs (4000 characters, 12000 bytes) takes the truncating
branch and the `usize` subtraction `4000 - 8000` wraps, so the release build
returns the empty string instead of the input (a debug build panics); the
minimal instance is one euro sign with cap 2. -/
theorem truncate_output_underflow_bug :
    truncate_output (List.replicate 4000 '€') 8000 = [] ∧
    (List.replicate 4000 '€').length ≤ 8000 ∧
    truncate_output ['€'] 2 = [] ∧
    (['€'] : List Char).length ≤ 2 ∧
    (['€'] : List Char) ≠ [] := by
  have h3 : '€'.utf8Size = 3 := by decide
  refine ⟨?_, ?_, ?_, by decide, by decide⟩
  · rw [truncate_output, if_neg (by rw [utf8Len_replicate, h3]; norm_num)]
    refine List.drop_eq_nil_of_le ?_
    rw [List.length_replicate]
    norm_num [usizeSub, USIZE]
  · rw [List.length_replicate]
    norm_num
  · rw [truncate_output, if_neg (by decide)]
    exact List.drop_eq_nil_of_le (by norm_num [usizeSub, USIZE])

/-- C2 counterexample: on a registry with no running process (the all-defaults
state), `stop_locked` does NOT reset every field to its default value: it sets
the `child_exited` latch to `true`, whose default is `false`. -/
theorem stop_locked_not_all_defaults :
    EngineManager.stop_locked engineStateDefault ≠ engineStateDefault ∧
    (EngineManager.stop_locked engineStateDefault).child_exited = true ∧
    engineStateDefault.child_exited = false ∧
    OpenworkServerManager.stop_locked openworkServerStateDefault ≠ openworkServerStateDefault := by
  refine ⟨fun h => ?_, rfl, rfl, fun h => ?_⟩
  · exact absurd (congrArg EngineState.child_exited h) (by decide)
  · exact absurd (congrArg OpenworkServerState.child_exited h) (by decide)

/-- C2 amended: `stop_locked` resets every field of the registry state to its
default value EXCEPT the `child_exited` latch, which it sets to `true` (the
child handle is cleared, and ports, URLs, credentials and captured output are
all reset); and calling it twice yields the same state as calling it once. -/
theorem stop_locked_resets_and_idempotent :
    (∀ state : EngineState,
        EngineManager.stop_locked state = { engineStateDefault with child_exited := true } ∧
        EngineManager.stop_locked (EngineManager.stop_locked state) =
          EngineManager.stop_locked state) ∧
    (∀ state : OpenworkServerState,
        OpenworkServerManager.stop_locked state =
          { openworkServerStateDefault with child_exited := true } ∧
        OpenworkServerManager.stop_locked (OpenworkServerManager.stop_locked state) =
          OpenworkServerManager.stop_locked state) :=
  ⟨fun _ => ⟨rfl, rfl⟩, fun _ => ⟨rfl, rfl⟩⟩

/-- Rust `char::is_whitespace`: the Unicode White_Space code points. -/
def isRustWhitespace (c : Char) : Bool :=
  let n := c.toNat
  (0x9 ≤ n && n ≤ 0xD) || n == 0x20 || n == 0x85 || n == 0xA0 || n == 0x1680 ||
  (0x2000 ≤ n && n ≤ 0x200A) || n == 0x2028 || n == 0x2029 || n == 0x202F ||
  n == 0x205F || n == 0x3000

/-- Rust `str::trim`: strip whitespace from both ends. -/
def trimChars (s : List Char) : List Char :=
  ((s.dropWhile isRustWhitespace).reverse.dropWhile isRustWhitespace).reverse

/-- Rust `str::parse::<u64>`: an optional leading plus sign, then one or more
ASCII digits, with the value below `2 ^ 64`; anything else is an error. -/
def parseU64 (s : List Char) : Option Nat :=
  let digits := match s with
    | '+' :: rest => rest
    | _ => s
  if digits = [] then none
  else if digits.all (fun c => c.isDigit) then
    let value := digits.foldl (fun acc c => acc * 10 + (c.toNat - '0'.toNat)) 0
    if value < USIZE then some value else none
  else none

/-- Rust `Option::filter`. -/
def optionFilter {α : Type} (p : α → Bool) : Option α → Option α
  | some a => if p a then some a else none
  | none => none

/-- `read_compat_env` from `src/commands/engine.rs`: reads an environment
variable (the process environment is the parameter here) and keeps it only when
its trimmed value is non-empty. -/
def read_compat_env (envValue : Option (List Char)) : Option (List Char) :=
  optionFilter (fun value => !(trimChars value = [] : Bool)) envValue

/-- The Orchestrated-mode readiness-timeout computation from `engine_start`
(`src/commands/engine.rs`): read `DOWHAT_ORCHESTRATOR_START_TIMEOUT_MS`, trim
and parse it as `u64`, keep it only when at least 1000, else fall back to
180000. -/
def health_timeout_ms (envTimeoutVar : Option (List Char)) : Nat :=
  (optionFilter (fun value => decide (1000 ≤ value))
      ((read_compat_env envTimeoutVar).bind (fun value => parseU64 (trimChars value)))).getD
    180000

/-- C3 counterexample: a configured override of 500 ms does not yield a
1000 ms readiness timeout; the code drops the sub-1000 value entirely and
falls back to the 180000 ms default. -/
theorem health_timeout_ms_no_clamp :
    health_timeout_ms (some ("500".toList)) = 180000 ∧
    health_timeout_ms (some ("500".toList)) ≠ 1000 := by
  constructor <;> decide

/-- C3 amended: the readiness wait uses 180000 ms when no override is set or
the override does not parse; a parsed override of at least 1000 ms is used
exactly; a parsed override below 1000 ms is IGNORED and the 180000 ms default
is used instead (there is no clamping to 1000 ms). -/
theorem health_timeout_ms_spec :
    health_timeout_ms none = 180000 ∧
    (∀ s v, parseU64 (trimChars s) = some v → 1000 ≤ v →
        health_timeout_ms (some s) = v) ∧
    (∀ s v, parseU64 (trimChars s) = some v → v < 1000 →
        health_timeout_ms (some s) = 180000) ∧
    (∀ s, parseU64 (trimChars s) = none → health_timeout_ms (some s) = 180000) ∧
    health_timeout_ms (some ("  2500 ".toList)) = 2500 := by
  have hempty : ∀ v : Nat, ¬ parseU64 [] = some v := by
    intro v h
    simp [parseU64] at h
  refine ⟨rfl, ?_, ?_, ?_, by decide⟩
  · intro s v hp hv
    by_cases h : trimChars s = []
    · rw [h] at hp
      exact absurd hp (hempty v)
    · simp [health_timeout_ms, read_compat_env, optionFilter, h, hp, hv]
  · intro s v hp hv
    by_cases h : trimChars s = []
    · rw [h] at hp
      exact absurd hp (hempty v)
    · simp [health_timeout_ms, read_compat_env, optionFilter, h, hp, Nat.not_le.mpr hv]
  · intro s hp
    by_cases h : trimChars s = []
    · simp [health_timeout_ms, read_compat_env, optionFilter, h]
    · simp [health_timeout_ms, read_compat_env, optionFilter, h, hp]

/-- C3 witness: a parsed override of 5000 ms is used exactly. -/
theorem health_timeout_ms_spec_witness :
    health_timeout_ms (some ("5000".toList)) = 5000 :=
  health_timeout_ms_spec.2.1 ("5000".toList) 5000 (by decide) (by decide)

/-- `find_free_port` from `src/engine/spawn.rs`: binds 127.0.0.1:0 and returns
whatever port the OS assigned (or the bind/read error); the OS outcome is the
parameter. -/
def find_free_port (bindEphemeral : Except String Nat) : Except String Nat :=
  bindEphemeral

/-- `allocate_free_port` from `src/commands/orchestrator.rs`: same ephemeral
bind-and-read-back scheme as `find_free_port`. -/
def allocate_free_port (bindEphemeral : Except String Nat) : Except String Nat :=
  bindEphemeral

/-- `DEFAULT_DOWHAT_PORT` from `src/openwork_server/spawn.rs`. -/
def DEFAULT_DOWHAT_PORT : Nat := 8787

/-- `resolve_openwork_port` from `src/openwork_server/spawn.rs`: first tries to
bind the fixed default port 8787 on 0.0.0.0 and returns it when that bind
succeeds; only otherwise binds port 0 and reads back the OS-assigned port. -/
def resolve_openwork_port (defaultPortBindable : Bool) (bindEphemeral : Except String Nat) :
    Except String Nat :=
  if defaultPortBindable then Except.ok DEFAULT_DOWHAT_PORT else bindEphemeral

/-- C4 counterexample: when port 8787 is free, the OpenWork-server spawn path
selects the hard-coded default port 8787 rather than the port the OS assigned
to an ephemeral listener. -/
theorem resolve_openwork_port_hard_coded :
    resolve_openwork_port true (Except.ok 50123) = Except.ok 8787 ∧
    (8787 : Nat) ≠ 50123 :=
  ⟨rfl, by decide⟩

/-- C4 amended: the engine port and the orchestrator ports are allocated by
binding an ephemeral listener (port 0) and reading back the OS-assigned port,
but the OpenWork-server port prefers the hard-coded default 8787 whenever that
port can be bound, falling back to an ephemeral allocation only when it
cannot. -/
theorem port_allocation_spec :
    (∀ r, find_free_port r = r) ∧
    (∀ r, allocate_free_port r = r) ∧
    (∀ r, resolve_openwork_port false r = r) ∧
    (∀ r, resolve_openwork_port true r = Except.ok 8787) :=
  ⟨fun _ => rfl, fun _ => rfl, fun _ => rfl, fun _ => rfl⟩

/-- The character class `[A-Za-z0-9_.-]` used by both
`derive_orchestrator_container_name` and the `sandbox_stop` guard in
`src/commands/orchestrator.rs` (`is_ascii_alphanumeric` or one of `_`, `.`,
`-`). -/
def runIdCharOk (ch : Char) : Bool :=
  ch.isAlphanum || ch == '_' || ch == '.' || ch == '-'

/-- The per-character step of the sanitization loop in
`derive_orchestrator_container_name`: keep an allowed character, replace any
other by a dash. -/
def sanitizeRunIdChar (ch : Char) : Char :=
  if runIdCharOk ch then ch else '-'

/-- `derive_orchestrator_container_name` from `src/commands/orchestrator.rs`:
sanitize each character of the run id, truncate the result to 24 when its byte
length (`String::len` / `String::truncate` count bytes) exceeds 24, then
prepend the fixed namespace prefix. -/
def derive_orchestrator_container_name (run_id : List Char) : List Char :=
  let sanitized := run_id.map sanitizeRunIdChar
  let truncated := if utf8Len sanitized > 24 then sanitized.take 24 else sanitized
  "openwork-orchestrator-".toList ++ truncated

/-- Every string of characters is at most as long as its UTF-8 byte length. -/
theorem length_le_utf8Len (s : List Char) : s.length ≤ utf8Len s := by
  induction s with
  | nil => simp [utf8Len]
  | cons c cs ih =>
    simp only [utf8Len, List.map_cons, List.sum_cons, List.length_cons] at ih ⊢
    have := Char.utf8Size_pos c
    omega

/-- C5: container-name derivation replaces every character outside
`[A-Za-z0-9_.-]` with a dash, truncates to at most 24 characters, and prefixes
the fixed namespace string; it is a pure function (equal inputs give equal
outputs); and on `"a/b c"` repeated 10 times it yields exactly the
24-character suffix `a-b-ca-b-ca-b-ca-b-ca-b-`, all of whose characters lie in
the allowed class. -/
theorem derive_container_name_spec :
    (∀ run_id : List Char, derive_orchestrator_container_name run_id =
        "openwork-orchestrator-".toList ++ (run_id.map sanitizeRunIdChar).take 24) ∧
    (∀ (run_id : List Char) (c : Char), c ∈ (run_id.map sanitizeRunIdChar).take 24 → runIdCharOk c = true) ∧
    (∀ run_id : List Char, ((run_id.map sanitizeRunIdChar).take 24).length ≤ 24) ∧
    (∀ a b : List Char, a = b →
        derive_orchestrator_container_name a = derive_orchestrator_container_name b) ∧
    derive_orchestrator_container_name (List.flatten (List.replicate 10 ("a/b c".toList))) =
      "openwork-orchestrator-".toList ++ "a-b-ca-b-ca-b-ca-b-ca-b-".toList ∧
    ("a-b-ca-b-ca-b-ca-b-ca-b-".toList).length = 24 := by
  refine ⟨?_, ?_, ?_, ?_, by decide, by decide⟩
  · intro run_id
    rw [derive_orchestrator_container_name]
    by_cases h : utf8Len (run_id.map sanitizeRunIdChar) > 24
    · simp [h]
    · have hlen : (run_id.map sanitizeRunIdChar).length ≤ 24 :=
        le_trans (length_le_utf8Len _) (by omega)
      simp [h, List.take_of_length_le hlen]
  · intro run_id c hc
    have hmem : c ∈ run_id.map sanitizeRunIdChar := List.take_subset _ _ hc
    obtain ⟨a, _, rfl⟩ := List.mem_map.mp hmem
    rw [sanitizeRunIdChar]
    by_cases h : runIdCharOk a
    · simp [h]
    · rw [if_neg h]
      decide
  · intro run_id
    rw [List.length_take]
    exact min_le_left _ _
  · intro a b h
    rw [h]

/-- C5 witness: the membership and determinism conjuncts at concrete inputs. -/
theorem derive_container_name_spec_witness :
    runIdCharOk 'a' = true ∧
    derive_orchestrator_container_name ("x".toList) =
      derive_orchestrator_container_name ("x".toList) :=
  ⟨derive_container_name_spec.2.1 ("a".toList) 'a' (by decide),
   derive_container_name_spec.2.2.2.1 ("x".toList) ("x".toList) rfl⟩

/-- `OrchestratorHealth` from `src/orchestrator/mod.rs`; the nested payload
structs (`daemon`, `opencode`, `sidecar`, `binaries`) are abstracted to opaque
identifiers, which the wait loop never inspects. -/
structure OrchestratorHealth where
  ok : Bool
  daemon : Option Nat
  opencode : Option Nat
  cli_version : Option String
  sidecar : Option Nat
  binaries : Option Nat
  active_id : Option String
  workspace_count : Option Nat
deriving DecidableEq

/-- The outcome of one `fetch_orchestrator_health` call inside
`wait_for_orchestrator`: a parsed 2xx response, or a request/parse error. -/
inductive ProbeResult where
  | ok (health : OrchestratorHealth)
  | err (msg : String)
deriving DecidableEq

/-- `wait_for_orchestrator` from `src/orchestrator/mod.rs`, with real time
abstracted: the list holds the successive probe outcomes the loop observes
while `start.elapsed() < timeout_ms` holds, so an exhausted list is exactly the
elapsed-time check failing.  Matches the Rust loop body: a healthy response
returns immediately; an unhealthy response or an error is recorded as the last
error and the loop continues; on timeout the last error (or the generic
timed-out message) is surfaced. -/
def wait_for_orchestrator :
    List ProbeResult → Option String → Except String OrchestratorHealth
  | [], last_error => Except.error (last_error.getD "Timed out waiting for orchestrator")
  | probe :: rest, last_error =>
    match probe with
    | .ok health =>
      if health.ok then Except.ok health
      else
        have _ := last_error
        wait_for_orchestrator rest (some "Orchestrator reported unhealthy")
    | .err e => wait_for_orchestrator rest (some e)

/-- Whether a probe outcome transitions the wait loop to Ready. -/
def isReadyProbe : ProbeResult → Bool
  | .ok health => health.ok
  | .err _ => false

/-- The message an unsuccessful probe records as the last error. -/
def probeErrorMessage : ProbeResult → String
  | .ok _ => "Orchestrator reported unhealthy"
  | .err e => e

/-- The value of the `last_error` variable after a sequence of unsuccessful
probes, starting from a given previous value. -/
def lastErrorAfter (probes : List ProbeResult) (last_error : Option String) : Option String :=
  probes.foldl (fun _ probe => some (probeErrorMessage probe)) last_error

/-- C6: the health-gated wait returns Ready with the parsed payload as soon as
a probe reports success; every unsuccessful probe is recorded as the last
error and the loop continues; and when the probes are exhausted (elapsed time
past the timeout) the wait fails with the last recorded error, or the generic
timed-out message when none was recorded — and the recorded error after any
unsuccessful sequence is that of its final probe. -/
theorem wait_for_orchestrator_spec :
    (∀ (health : OrchestratorHealth) (rest : List ProbeResult) (last_error : Option String),
        health.ok = true →
        wait_for_orchestrator (.ok health :: rest) last_error = Except.ok health) ∧
    (∀ (probe : ProbeResult) (rest : List ProbeResult) (last_error : Option String),
        isReadyProbe probe = false →
        wait_for_orchestrator (probe :: rest) last_error =
          wait_for_orchestrator rest (some (probeErrorMessage probe))) ∧
    (∀ (probes : List ProbeResult) (last_error : Option String),
        probes.all (fun q => !isReadyProbe q) = true →
        wait_for_orchestrator probes last_error =
          Except.error
            ((lastErrorAfter probes last_error).getD "Timed out waiting for orchestrator")) ∧
    (∀ (probes : List ProbeResult) (last_error : Option String) (probe : ProbeResult),
        lastErrorAfter (probes ++ [probe]) last_error = some (probeErrorMessage probe)) := by
  have hstep : ∀ (probe : ProbeResult) (rest : List ProbeResult) (last_error : Option String),
      isReadyProbe probe = false →
      wait_for_orchestrator (probe :: rest) last_error =
        wait_for_orchestrator rest (some (probeErrorMessage probe)) := by
    intro probe rest last_error hnr
    cases probe with
    | ok health =>
      simp only [isReadyProbe] at hnr
      simp [wait_for_orchestrator, hnr, probeErrorMessage]
    | err e => rfl
  refine ⟨?_, hstep, ?_, ?_⟩
  · intro health rest last_error hok
    simp [wait_for_orchestrator, hok]
  · intro probes
    induction probes with
    | nil => intro last_error _; rfl
    | cons probe rest ih =>
      intro last_error hall
      rw [List.all_cons, Bool.and_eq_true] at hall
      have hnr : isReadyProbe probe = false := by
        rcases hall with ⟨h1, _⟩
        cases hp : isReadyProbe probe
        · rfl
        · rw [hp] at h1; exact absurd h1 (by decide)
      rw [hstep probe rest last_error hnr, ih (some (probeErrorMessage probe)) hall.2]
      rfl
  · intro probes last_error probe
    simp [lastErrorAfter, List.foldl_append]

/-- C6 witness: a first healthy probe returns Ready with its payload. -/
theorem wait_for_orchestrator_spec_witness :
    wait_for_orchestrator
        [ProbeResult.ok
          { ok := true, daemon := none, opencode := none, cli_version := none,
            sidecar := none, binaries := none, active_id := none, workspace_count := none }]
        none =
      Except.ok
        { ok := true, daemon := none, opencode := none, cli_version := none,
          sidecar := none, binaries := none, active_id := none, workspace_count := none } :=
  wait_for_orchestrator_spec.1
    { ok := true, daemon := none, opencode := none, cli_version := none,
      sidecar := none, binaries := none, active_id := none, workspace_count := none }
    [] none rfl

/-- `sandbox_stop` from `src/commands/orchestrator.rs`, up to the point where
the container runtime is invoked: trim the name, reject an empty result, a
result without the orchestrator prefix, or a result containing characters
outside `[A-Za-z0-9_.-]`; only a name passing all three checks reaches
`run_docker_command(["stop", name])`, whose argv is returned here. -/
def sandbox_stop (container_name : List Char) : Except String (List (List Char)) :=
  let name := trimChars container_name
  if name = [] then Except.error "containerName is required"
  else if !("openwork-orchestrator-".toList.isPrefixOf name) then
    Except.error "Refusing to stop container: expected name starting with openwork-orchestrator-"
  else if !(name.all runIdCharOk) then
    Except.error "containerName contains invalid characters"
  else Except.ok ["stop".toList, name]

/-- C10: the sandbox stop operation reaches the container runtime exactly when
the trimmed name is non-empty, starts with the fixed orchestrator prefix, and
contains only characters in `[A-Za-z0-9_.-]`; otherwise it returns an error
without invoking the runtime, and any invocation is `docker stop` on the
trimmed name. -/
theorem sandbox_stop_guard_spec :
    ∀ container_name : List Char,
      (sandbox_stop container_name =
          Except.ok ["stop".toList, trimChars container_name] ↔
        (trimChars container_name ≠ [] ∧
         "openwork-orchestrator-".toList.isPrefixOf (trimChars container_name) = true ∧
         (trimChars container_name).all runIdCharOk = true)) ∧
      (∀ cmd, sandbox_stop container_name = Except.ok cmd →
        cmd = ["stop".toList, trimChars container_name]) := by
  intro container_name
  simp only [sandbox_stop]
  split_ifs with h1 h2 h3
  · exact ⟨⟨fun h => (nomatch h), fun hc => absurd h1 hc.1⟩, fun cmd hcmd => nomatch hcmd⟩
  · have h2f : "openwork-orchestrator-".toList.isPrefixOf (trimChars container_name) = false := by
      simpa using h2
    exact ⟨⟨fun h => (nomatch h), fun hc => absurd (h2f ▸ hc.2.1) (by decide)⟩,
      fun cmd hcmd => nomatch hcmd⟩
  · have h3f : (trimChars container_name).all runIdCharOk = false := by
      simpa using h3
    exact ⟨⟨fun h => (nomatch h), fun hc => absurd (h3f ▸ hc.2.2) (by decide)⟩,
      fun cmd hcmd => nomatch hcmd⟩
  · have h2t : "openwork-orchestrator-".toList.isPrefixOf (trimChars container_name) = true := by
      simpa using h2
    have h3t : (trimChars container_name).all runIdCharOk = true := by
      simpa using h3
    exact ⟨⟨fun _ => ⟨h1, h2t, h3t⟩, fun _ => rfl⟩,
      fun cmd hcmd => by injection hcmd with h; exact h.symm⟩

/-- C10 witness: a well-formed container name reaches the runtime. -/
theorem sandbox_stop_guard_spec_witness :
    sandbox_stop ("openwork-orchestrator-abc".toList) =
      Except.ok ["stop".toList, trimChars ("openwork-orchestrator-abc".toList)] :=
  ((sandbox_stop_guard_spec ("openwork-orchestrator-abc".toList)).1).mpr (by decide)

/-- `SAFE_DNS_RESULT_ORDER` from `src/bun_env.rs`. -/
def SAFE_DNS_RESULT_ORDER : List Char := "verbatim".toList

/-- `is_valid_dns_result_order` from `src/bun_env.rs`: trim, lowercase the
ASCII letters (`to_ascii_lowercase`), and accept exactly `ipv4first` and
`verbatim`. -/
def is_valid_dns_result_order (value : List Char) : Bool :=
  let normalized := (trimChars value).map Char.toLower
  normalized == "ipv4first".toList || normalized == "verbatim".toList

/-- Rust `str::split_whitespace`: split on Unicode whitespace, dropping empty
tokens; `acc` holds the token being built, in reverse. -/
def splitWhitespaceAux : List Char → List Char → List (List Char)
  | [], acc => if acc = [] then [] else [acc.reverse]
  | c :: cs, acc =>
    if isRustWhitespace c then
      if acc = [] then splitWhitespaceAux cs []
      else acc.reverse :: splitWhitespaceAux cs []
    else splitWhitespaceAux cs (c :: acc)

/-- Rust `str::split_whitespace`, collected into a vector of tokens. -/
def split_whitespace (s : List Char) : List (List Char) :=
  splitWhitespaceAux s []

/-- The token loop of `sanitize_dns_result_order_args` (`src/bun_env.rs`):
walks the tokens, keeping everything except `--dns-result-order=<invalid>`
tokens and `--dns-result-order <invalid-or-missing>` pairs; returns the kept
tokens together with the `changed` flag. -/
def sanitizeDnsTokens : List (List Char) → List (List Char) × Bool
  | [] => ([], false)
  | token :: rest =>
    if "--dns-result-order=".toList.isPrefixOf token then
      let order := token.drop ("--dns-result-order=".toList.length)
      let result := sanitizeDnsTokens rest
      if is_valid_dns_result_order order then (token :: result.1, result.2)
      else (result.1, true)
    else if token = "--dns-result-order".toList then
      match rest with
      | order :: rest2 =>
        let result := sanitizeDnsTokens rest2
        if is_valid_dns_result_order order then (token :: order :: result.1, result.2)
        else (result.1, true)
      | [] => ([], true)
    else
      let result := sanitizeDnsTokens rest
      (token :: result.1, result.2)

/-- Rust `Vec::join(" ")`. -/
def joinSpaces : List (List Char) → List Char
  | [] => []
  | [token] => token
  | token :: rest => token ++ ' ' :: joinSpaces rest

/-- `sanitize_dns_result_order_args` from `src/bun_env.rs`: `none` means the
value was unchanged (and the caller emits no override); `some s` is the
sanitized replacement. -/
def sanitize_dns_result_order_args (raw : List Char) : Option (List Char) :=
  let result := sanitizeDnsTokens (split_whitespace raw)
  if result.2 then some (joinSpaces result.1) else none

/-- `bun_env_overrides` from `src/bun_env.rs`: always force
`BUN_CONFIG_DNS_RESULT_ORDER=verbatim`; override `BUN_OPTIONS` and
`NODE_OPTIONS` (whose current values are the parameters) only when
sanitization actually changed them. -/
def bun_env_overrides (bunOptions nodeOptions : Option (List Char)) :
    List (String × List Char) :=
  [("BUN_CONFIG_DNS_RESULT_ORDER", SAFE_DNS_RESULT_ORDER)]
  ++ (match bunOptions with
      | some value =>
        match sanitize_dns_result_order_args value with
        | some sanitized => [("BUN_OPTIONS", sanitized)]
        | none => []
      | none => [])
  ++ (match nodeOptions with
      | some value =>
        match sanitize_dns_result_order_args value with
        | some sanitized => [("NODE_OPTIONS", sanitized)]
        | none => []
      | none => [])

/-- C8: sanitization strips the invalid `--dns-result-order=ipv6first` while
keeping `--smol` and `--hot`; a lone valid `--dns-result-order=ipv4first` is
left unchanged and reported as unchanged, so no override is emitted for that
variable (only the always-on safe DNS order override). -/
theorem sanitize_dns_examples :
    sanitize_dns_result_order_args ("--smol --dns-result-order=ipv6first --hot".toList) =
      some ("--smol --hot".toList) ∧
    sanitize_dns_result_order_args ("--dns-result-order=ipv4first".toList) = none ∧
    bun_env_overrides (some ("--dns-result-order=ipv4first".toList)) none =
      [("BUN_CONFIG_DNS_RESULT_ORDER", "verbatim".toList)] ∧
    bun_env_overrides (some ("--smol --dns-result-order=ipv6first --hot".toList)) none =
      [("BUN_CONFIG_DNS_RESULT_ORDER", "verbatim".toList),
       ("BUN_OPTIONS", "--smol --hot".toList)] := by
  refine ⟨?_, ?_, ?_, ?_⟩ <;> decide

/-- `build_engine_args` from `src/engine/spawn.rs`. -/
def build_engine_args (bind_host : String) (port : Nat) : List String :=
  ["serve", "--hostname", bind_host, "--port", toString port, "--cors", "*"]

/-- The observable shape of a spawned child command: its argv (after the
program name) and its extra environment entries. -/
structure SpawnedCommand where
  args : List String
  env : List (String × String)
deriving DecidableEq

/-- The conditional credential environment insertion shared by
`spawn_engine` and `spawn_openwork_server`: set the variable only when the
credential is provided and non-blank. -/
def credentialEnv (key : String) (value : Option String) : List (String × String) :=
  match value with
  | some v => if trimChars v.toList = [] then [] else [(key, v)]
  | none => []

/-- `spawn_engine` from `src/engine/spawn.rs`, restricted to its observable
command construction.  `baseEnv` stands for the credential-independent
environment entries the function installs before the credentials
(`XDG_DATA_HOME`, `XDG_CONFIG_HOME`, `OPENCODE_CLIENT`, `OPENWORK`, the bun
overrides and `PATH`), none of which is computed from the credentials. -/
def spawn_engine (hostname : String) (port : Nat) (baseEnv : List (String × String))
    (opencode_username opencode_password : Option String) : SpawnedCommand :=
  { args := build_engine_args hostname port
    env := baseEnv
      ++ credentialEnv "OPENCODE_SERVER_USERNAME" opencode_username
      ++ credentialEnv "OPENCODE_SERVER_PASSWORD" opencode_password }

/-- `build_openwork_args` from `src/openwork_server/spawn.rs`. -/
def build_openwork_args (host : String) (port : Nat) (workspace_paths : List String)
    (token host_token : String) (opencode_base_url opencode_directory : Option String) :
    List String :=
  ["--host", host, "--port", toString port, "--token", token, "--host-token", host_token,
   "--cors", "*", "--approval", "auto"]
  ++ (workspace_paths.map (fun path =>
        if trimChars path.toList = [] then [] else ["--workspace", path])).flatten
  ++ (match opencode_base_url with
      | some base_url =>
        if trimChars base_url.toList = [] then [] else ["--opencode-base-url", base_url]
      | none => [])
  ++ (match opencode_directory with
      | some directory =>
        if trimChars directory.toList = [] then [] else ["--opencode-directory", directory]
      | none => [])

/-- `spawn_openwork_server` from `src/openwork_server/spawn.rs`, restricted to
its observable command construction; `baseEnv` stands for the bun environment
overrides installed after the credentials, which are credential-independent. -/
def spawn_openwork_server (host : String) (port : Nat) (workspace_paths : List String)
    (token host_token : String) (opencode_base_url opencode_directory : Option String)
    (baseEnv : List (String × String)) (opencode_username opencode_password : Option String) :
    SpawnedCommand :=
  { args := build_openwork_args host port workspace_paths token host_token
      opencode_base_url opencode_directory
    env := credentialEnv "DOWHAT_OPENCODE_USERNAME" opencode_username
      ++ credentialEnv "DOWHAT_OPENCODE_PASSWORD" opencode_password
      ++ baseEnv }

/-- C9: for both spawn paths the constructed argv is a function of the
non-credential inputs alone (so the username and password never appear in it),
while non-blank credentials are installed in the child environment under their
dedicated variables; the engine argv is exactly the fixed serve command. -/
theorem credentials_env_not_argv :
    (∀ hostname port baseEnv u1 p1 u2 p2,
        (spawn_engine hostname port baseEnv u1 p1).args =
          (spawn_engine hostname port baseEnv u2 p2).args) ∧
    (∀ hostname port baseEnv u p, ¬ trimChars u.toList = [] →
        ("OPENCODE_SERVER_USERNAME", u) ∈ (spawn_engine hostname port baseEnv (some u) p).env) ∧
    (∀ hostname port baseEnv u p, ¬ trimChars p.toList = [] →
        ("OPENCODE_SERVER_PASSWORD", p) ∈ (spawn_engine hostname port baseEnv u (some p)).env) ∧
    (∀ host port ws token host_token burl dir baseEnv u1 p1 u2 p2,
        (spawn_openwork_server host port ws token host_token burl dir baseEnv u1 p1).args =
          (spawn_openwork_server host port ws token host_token burl dir baseEnv u2 p2).args) ∧
    (∀ host port ws token host_token burl dir baseEnv u p, ¬ trimChars u.toList = [] →
        ("DOWHAT_OPENCODE_USERNAME", u) ∈
          (spawn_openwork_server host port ws token host_token burl dir baseEnv
            (some u) p).env) ∧
    (∀ host port ws token host_token burl dir baseEnv u p, ¬ trimChars p.toList = [] →
        ("DOWHAT_OPENCODE_PASSWORD", p) ∈
          (spawn_openwork_server host port ws token host_token burl dir baseEnv
            u (some p)).env) ∧
    (∀ hostname port, build_engine_args hostname port =
        ["serve", "--hostname", hostname, "--port", toString port, "--cors", "*"]) := by
  refine ⟨fun _ _ _ _ _ _ _ => rfl, ?_, ?_, fun _ _ _ _ _ _ _ _ _ _ _ _ => rfl, ?_, ?_,
    fun _ _ => rfl⟩
  · intro hostname port baseEnv u p hu
    simp [spawn_engine, credentialEnv, hu]
    tauto
  · intro hostname port baseEnv u p hp
    simp [spawn_engine, credentialEnv, hp]
    tauto
  · intro host port ws token host_token burl dir baseEnv u p hu
    simp [spawn_openwork_server, credentialEnv, hu]
    tauto
  · intro host port ws token host_token burl dir baseEnv u p hp
    simp [spawn_openwork_server, credentialEnv, hp]
    tauto

/-- C9 witness: concrete credentials land in the dedicated variables. -/
theorem credentials_env_not_argv_witness :
    ("OPENCODE_SERVER_USERNAME", "opencode") ∈
      (spawn_engine "0.0.0.0" 4096 [] (some "opencode") none).env ∧
    ("DOWHAT_OPENCODE_USERNAME", "opencode") ∈
      (spawn_openwork_server "0.0.0.0" 8787 [] "t" "h" none none [] (some "opencode") none).env :=
  ⟨credentials_env_not_argv.2.1 "0.0.0.0" 4096 [] "opencode" none (by decide),
   credentials_env_not_argv.2.2.2.2.1 "0.0.0.0" 8787 [] "t" "h" none none [] "opencode" none
     (by decide)⟩

/-- The externally visible steps of `engine_start` (`src/commands/engine.rs`)
in program order: the two registry resets, each spawn call (the step begins
even when the spawn itself then fails), and the final return. -/
inductive StartEvent where
  | stopEngine
  | stopOrchestratorDaemon
  | spawnStep (process : String)
  | finish (ok : Bool)
deriving DecidableEq

/-- The branch decisions taken during one execution of `engine_start`:
`preflightOk` covers everything before the registry resets (non-empty
`project_dir`, directory creation, config read/write, engine-port
allocation); `resolveProgramOk` is the OpenCode binary resolution;
`daemonPortOk`, `daemonSpawnOk` and `daemonHealthyOk` are the Orchestrated
branch (the third also covers the post-wait state updates), while
`engineSpawnOk` and `warmupOk` are the Direct branch. -/
structure StartScenario where
  preflightOk : Bool
  runtime : EngineRuntime
  resolveProgramOk : Bool
  daemonPortOk : Bool
  daemonSpawnOk : Bool
  daemonHealthyOk : Bool
  engineSpawnOk : Bool
  warmupOk : Bool

/-- The event trace of `engine_start` as a function of its branch decisions,
following the source order: every early error before the registry resets
returns at once; then `EngineManager::stop_locked` and
`OrchestratorManager::stop_locked` run synchronously; only after both can a
spawn step begin (`spawn_orchestrator_daemon` then `start_openwork_server` in
the Orchestrated branch, `spawn_engine` then `start_openwork_server` in the
Direct branch; a failing `start_openwork_server` is tolerated and the start
still returns success). -/
def engine_start_trace (sc : StartScenario) : List StartEvent :=
  if sc.preflightOk = false then [.finish false]
  else
    .stopEngine :: .stopOrchestratorDaemon ::
      (if sc.resolveProgramOk = false then [.finish false]
       else
         match sc.runtime with
         | .Orchestrator =>
           if sc.daemonPortOk = false then [.finish false]
           else
             .spawnStep "openwork-orchestrator" ::
               (if sc.daemonSpawnOk = false then [.finish false]
                else if sc.daemonHealthyOk = false then [.finish false]
                else [.spawnStep "openwork-server", .finish true])
         | .Direct =>
           .spawnStep "opencode" ::
             (if sc.engineSpawnOk = false then [.finish false]
              else if sc.warmupOk = false then [.finish false]
              else [.spawnStep "openwork-server", .finish true]))

/-- Both registry resets strictly precede every spawn step of a trace. -/
def stops_precede_spawns (trace : List StartEvent) : Prop :=
  ∀ i s, trace.get? i = some (.spawnStep s) →
    (∃ j, j < i ∧ trace.get? j = some .stopEngine) ∧
    (∃ k, k < i ∧ trace.get? k = some .stopOrchestratorDaemon)

/-- Executable check for `stops_precede_spawns`. -/
def stopsPrecedeSpawnsCheck (trace : List StartEvent) : Bool :=
  (List.range trace.length).all (fun i =>
    match trace.get? i with
    | some (.spawnStep _) =>
      ((List.range i).any (fun j => decide (trace.get? j = some .stopEngine))) &&
      ((List.range i).any (fun k => decide (trace.get? k = some .stopOrchestratorDaemon)))
    | _ => true)

/-- The boolean check implies the ordering property. -/
theorem stops_precede_spawns_of_check (trace : List StartEvent)
    (h : stopsPrecedeSpawnsCheck trace = true) : stops_precede_spawns trace := by
  intro i s hi
  have hilen : i < trace.length := by
    by_contra hge
    rw [List.get?_eq_none.mpr (Nat.le_of_not_lt hge)] at hi
    exact nomatch hi
  have hall := (List.all_eq_true.mp h) i (List.mem_range.mpr hilen)
  rw [hi] at hall
  simp only [Bool.and_eq_true, List.any_eq_true] at hall
  obtain ⟨⟨j, hj, hje⟩, ⟨k, hk, hke⟩⟩ := hall
  exact ⟨⟨j, List.mem_range.mp hj, of_decide_eq_true hje⟩,
    ⟨k, List.mem_range.mp hk, of_decide_eq_true hke⟩⟩

/-- C7: in every execution of `engine_start`, both registry resets
(`EngineManager::stop_locked` and `OrchestratorManager::stop_locked`) occur,
to completion, before any spawn step begins, so no spawn starts while a
previous session's process handle is still installed in either registry. -/
theorem engine_start_stop_before_spawn :
    ∀ sc : StartScenario, stops_precede_spawns (engine_start_trace sc) := by
  intro sc
  apply stops_precede_spawns_of_check
  rcases sc with ⟨pf, rt, ro, dp, ds, dh, es, wu⟩
  cases pf <;> cases rt <;> cases ro <;> cases dp <;> cases ds <;> cases dh <;>
    cases es <;> cases wu <;> decide

/-- C7 witness: in the fully successful Orchestrated execution, the daemon
spawn at index 2 is preceded by both registry resets. -/
theorem engine_start_stop_before_spawn_witness :
    (∃ j, j < 2 ∧
      (engine_start_trace
        ⟨true, .Orchestrator, true, true, true, true, true, true⟩).get? j =
        some .stopEngine) ∧
    (∃ k, k < 2 ∧
      (engine_start_trace
        ⟨true, .Orchestrator, true, true, true, true, true, true⟩).get? k =
        some .stopOrchestratorDaemon) :=
  engine_start_stop_before_spawn ⟨true, .Orchestrator, true, true, true, true, true, true⟩
    2 "openwork-orchestrator" rfl

end DoWhat
